import Mathlib

/-!
Verification of the contact-form submission pipeline of `src/server.js`
(the `app.post("/api/contact")` handler, lines 76-182, together with the
Mongoose `contactSchema`, lines 24-49).

The JavaScript handler is shallowly embedded as the pure function
`handleContact`: request bodies are records of JavaScript values, the
store and the two mail sends are modelled by an environment of booleans
saying whether each external effect succeeds, and the observable outcome
of one request (HTTP response, whether a save was attempted, the record
persisted, which mails were composed and handed to the transport) is
returned as data.
-/

namespace PortfolioBackend

/-- JavaScript values, as far as the handler can observe them: the fields
destructured from `req.body` may be absent (`undefined`), `null`, booleans,
numbers or strings. -/
inductive JSVal where
  | vUndefined
  | vNull
  | vBool (b : Bool)
  | vNum (n : Int)
  | vStr (s : String)
deriving DecidableEq

/-- JavaScript truthiness, used by `if (!name || !email || !message)`
(line 81) and by `subject or "No Subject"` (lines 92, 104, 126). -/
def truthy : JSVal → Bool
  | .vUndefined => false
  | .vNull => false
  | .vBool b => b
  | .vNum n => n != 0
  | .vStr s => s != ""

/-- JavaScript `a || b`: `a` when truthy, otherwise `b`. -/
def jsOr (a b : JSVal) : JSVal := if truthy a then a else b

/-- Whitespace for JavaScript `String.prototype.trim` (space, tab, newline,
carriage return, vertical tab, form feed; the ASCII fragment). -/
def jsIsSpace (c : Char) : Bool :=
  c = ' ' || c = '\t' || c = '\n' || c = '\r' || c = '\x0b' || c = '\x0c'

/-- Drop leading and trailing whitespace from a character list. -/
def trimChars (l : List Char) : List Char :=
  ((l.dropWhile jsIsSpace).reverse.dropWhile jsIsSpace).reverse

/-- JavaScript `s.trim()`, the semantics of the Mongoose `trim: true`
setter (schema lines 28, 33, 38, 43). -/
def jsTrim (s : String) : String := ⟨trimChars s.data⟩

/-- Lower-case one character (ASCII). -/
def lowerChar (c : Char) : Char :=
  if 'A' ≤ c && c ≤ 'Z' then Char.ofNat (c.toNat + 32) else c

/-- JavaScript `s.toLowerCase()`, the semantics of the Mongoose
`lowercase: true` setter on `email` (schema line 34). -/
def jsToLower (s : String) : String := ⟨s.data.map lowerChar⟩

/-- Replace every newline by `<br>` in a character list. -/
def nlToBr (l : List Char) : List Char :=
  l.flatMap (fun c => if c = '\n' then ['<', 'b', 'r', '>'] else [c])

/-- JavaScript `message.replace` of newlines by `<br>` (line 127). -/
def jsNlToBr (s : String) : String := ⟨nlToBr s.data⟩

/-- JavaScript string conversion, as performed by template-literal
interpolation `${v}`. -/
def jsToString : JSVal → String
  | .vUndefined => "undefined"
  | .vNull => "null"
  | .vBool b => if b then "true" else "false"
  | .vNum n => toString n
  | .vStr s => s

/-- Mongoose `String`-path casting: strings pass through, numbers and
booleans are stringified, `null`/`undefined` yield no string value (the
`required` validator then rejects them). -/
def castString : JSVal → Option String
  | .vUndefined => none
  | .vNull => none
  | .vBool b => some (if b then "true" else "false")
  | .vNum n => some (toString n)
  | .vStr s => some s

/-- A required, trimmed schema path (`name`, `message`): cast then trim. -/
def setRequiredTrim (v : JSVal) : Option String := (castString v).map jsTrim

/-- The `email` path: cast, lower-case, trim (schema lines 30-35). -/
def setEmailField (v : JSVal) : Option String :=
  (castString v).map (fun s => jsTrim (jsToLower s))

/-- A persisted contact record, as the Mongoose document stores it after
setters ran: `subject` is not `required`, so it is an optional field. -/
structure Contact where
  name : String
  email : String
  subject : Option String
  message : String
deriving DecidableEq

/-- The four fields destructured from `req.body` (line 78); a field absent
from the JSON body destructures to `undefined`. -/
structure RequestBody where
  name : JSVal
  email : JSVal
  subject : JSVal
  message : JSVal
deriving DecidableEq

/-- The handler validation at line 81: `if (!name || !email || !message)`
— pure JavaScript truthiness, no trimming. -/
def requiredFieldsPresent (b : RequestBody) : Bool :=
  truthy b.name && truthy b.email && truthy b.message

/-- The default applied at line 92: `subject: subject or default "No Subject"`. -/
def subjectOrDefault (b : RequestBody) : JSVal := jsOr b.subject (.vStr "No Subject")

/-- The document built by `new Contact({...})` (lines 89-94) as validated
and stored by `newContact.save()` (line 96): Mongoose runs the cast and the
`trim`/`lowercase` setters, then the `required` validators, which for a
`String` path demand a present, non-empty value. `none` models a Mongoose
`ValidationError` thrown by `save`. -/
def buildDoc (b : RequestBody) : Option Contact :=
  match setRequiredTrim b.name, setEmailField b.email, setRequiredTrim b.message with
  | some n, some e, some m =>
    if n != "" && e != "" && m != "" then
      some { name := n, email := e,
             subject := (castString (subjectOrDefault b)).map jsTrim,
             message := m }
    else none
  | _, _, _ => none

/-- Environment of one request: does the database write succeed, does each
`transporter.sendMail` call succeed, and the `process.env.EMAIL_USER`
address interpolated into the `from` headers. -/
structure Env where
  storeOk : Bool
  adminSendOk : Bool
  replySendOk : Bool
  emailUser : String

/-- Result of `newContact.save()`: the saved document, a Mongoose
`ValidationError`, or an infrastructure store failure. -/
inductive SaveResult where
  | saved (c : Contact)
  | schemaReject
  | storeFail
deriving DecidableEq

/-- `await newContact.save()` (line 96): Mongoose validates the document
first (throwing `ValidationError` regardless of connectivity), then writes. -/
def saveContact (env : Env) (b : RequestBody) : SaveResult :=
  match buildDoc b with
  | none => .schemaReject
  | some c => if env.storeOk then .saved c else .storeFail

/-- A composed nodemailer message: `from`, `to`, optional `replyTo`,
`subject`, `html`. -/
structure MailOptions where
  sender : String
  recipient : String
  replyTo : Option String
  subject : String
  html : String
deriving DecidableEq

/-- Admin mail template (lines 105-124), from the start of the template
literal up to the `value` cell in which `${name}` is interpolated. -/
def adminHtmlA : String :=
  "\n"
  ++ "                <!DOCTYPE html>\n"
  ++ "                <html>\n"
  ++ "                <head>\n"
  ++ "                  <style>\n"
  ++ "                    body \x7b font-family: Arial, sans-serif; line-height: 1.6; color: #333; \x7d\n"
  ++ "                    .container \x7b max-width: 600px; margin: 20px auto; padding: 20px; border: 1px solid #ddd; border-radius: 8px; \x7d\n"
  ++ "                    .header \x7b background-color: #4F46E5; color: white; padding: 10px; text-align: center; border-radius: 5px 5px 0 0; \x7d\n"
  ++ "                    .content \x7b padding: 20px; \x7d\n"
  ++ "                    .field \x7b margin-bottom: 15px; \x7d\n"
  ++ "                    .label \x7b font-weight: bold; color: #555; \x7d\n"
  ++ "                    .value \x7b margin-top: 5px; padding: 10px; background-color: #f9f9f9; border: 1px solid #eee; border-radius: 3px; \x7d\n"
  ++ "                    .footer \x7b margin-top: 20px; text-align: center; font-size: 12px; color: #888; \x7d\n"
  ++ "                  </style>\n"
  ++ "                </head>\n"
  ++ "                <body>\n"
  ++ "                  <div class=\"container\">\n"
  ++ "                    <div class=\"header\"><h2>New Contact Form Submission</h2></div>\n"
  ++ "                    <div class=\"content\">\n"
  ++ "                      <div class=\"field\"><div class=\"label\">Name:</div><div class=\"value\">"

/-- Admin mail template (lines 124-125), between `${name}` and the
`mailto:` anchor that carries `${email}`. -/
def adminHtmlB : String :=
  "</div></div>\n"
  ++ "                      <div class=\"field\"><div class=\"label\">Email:</div><div class=\"value\">"

/-- Admin mail template (lines 125-126), between the closing of the email
anchor and `subject-or-default`. -/
def adminHtmlC : String :=
  "</div></div>\n"
  ++ "                      <div class=\"field\"><div class=\"label\">Subject:</div><div class=\"value\">"

/-- Admin mail template (lines 126-127), between the subject cell and the
interpolation of the newline-converted `message`. -/
def adminHtmlD : String :=
  "</div></div>\n"
  ++ "                      <div class=\"field\"><div class=\"label\">Message:</div><div class=\"value\">"

/-- Admin mail template (lines 127-133), from the end of the message cell
to the end of the template literal. -/
def adminHtmlE : String :=
  "</div></div>\n"
  ++ "                    </div>\n"
  ++ "                    <div class=\"footer\"><p>This message was sent from your portfolio contact form.</p></div>\n"
  ++ "                  </div>\n"
  ++ "                </body>\n"
  ++ "                </html>\n"
  ++ "            "

/-- The `html` body of `mailOptionsToAdmin` (lines 105-133): the template
literal with `name`, `email` (twice, inside a `mailto:` anchor), the
defaulted subject, and the newline-converted message interpolated raw. -/
def adminHtml (name email subject message : String) : String :=
  adminHtmlA ++ name ++ adminHtmlB
  ++ "<a href=\"mailto:" ++ email ++ "\">" ++ email ++ "</a>"
  ++ adminHtmlC ++ subject ++ adminHtmlD ++ jsNlToBr message ++ adminHtmlE

/-- Auto-reply template (lines 144-160), up to `<p>Hi ` before `${name}`. -/
def replyHtmlA : String :=
  "\n"
  ++ "                <!DOCTYPE html>\n"
  ++ "                <html>\n"
  ++ "                <head>\n"
  ++ "                  <style>\n"
  ++ "                    body \x7b font-family: Arial, sans-serif; line-height: 1.6; color: #333; \x7d\n"
  ++ "                    .container \x7b max-width: 600px; margin: 20px auto; padding: 20px; border: 1px solid #ddd; border-radius: 8px; \x7d\n"
  ++ "                    .header \x7b background-color: #4F46E5; color: white; padding: 10px; text-align: center; border-radius: 5px 5px 0 0; \x7d\n"
  ++ "                    .content \x7b padding: 20px; text-align: left; \x7d\n"
  ++ "                    .footer \x7b margin-top: 20px; text-align: center; font-size: 12px; color: #888; \x7d\n"
  ++ "                  </style>\n"
  ++ "                </head>\n"
  ++ "                <body>\n"
  ++ "                  <div class=\"container\">\n"
  ++ "                    <div class=\"header\"><h2>Thank You!</h2></div>\n"
  ++ "                    <div class=\"content\">\n"
  ++ "                      <p>Hi "

/-- Auto-reply template (lines 160-168), everything after `${name}`. -/
def replyHtmlB : String :=
  ",</p>\n"
  ++ "                      <p>Thank you for reaching out! I have received your message and will get back to you as soon as possible.</p>\n"
  ++ "                      <p>Best regards,<br>Kinshuk Saxena</p>\n"
  ++ "                    </div>\n"
  ++ "                    <div class=\"footer\"><p>This is an automated reply. Please do not reply to this email.</p></div>\n"
  ++ "                  </div>\n"
  ++ "                </body>\n"
  ++ "                </html>\n"
  ++ "            "

/-- The `html` body of `autoReplyOptions` (lines 144-168). -/
def replyHtml (name : String) : String := replyHtmlA ++ name ++ replyHtmlB

/-- `mailOptionsToAdmin` (lines 100-134). Building it evaluates
`message.replace` of newlines by `<br>`, which throws a `TypeError` when
`message` is not a string (numbers and booleans have no `replace` method);
that failure is modelled by `none`. All interpolations use the raw
request-body values, not the persisted document. -/
def composeAdminMail (env : Env) (b : RequestBody) : Option MailOptions :=
  match b.message with
  | .vStr m => some
      { sender := "\"" ++ jsToString b.name ++ "\" <" ++ env.emailUser ++ ">"
        recipient := "kinshuksaxena3@gmail.com"
        replyTo := some (jsToString b.email)
        subject := "New Contact Form Message: " ++ jsToString (subjectOrDefault b)
        html := adminHtml (jsToString b.name) (jsToString b.email)
                 (jsToString (subjectOrDefault b)) m }
  | _ => none

/-- `autoReplyOptions` (lines 140-169): addressed to the raw request-body
email, fixed subject, body greeting the raw request-body name. -/
def composeReplyMail (env : Env) (b : RequestBody) : MailOptions :=
  { sender := "\"Kinshuk Saxena\" <" ++ env.emailUser ++ ">"
    recipient := jsToString b.email
    replyTo := none
    subject := "Thank you for your message!"
    html := replyHtml (jsToString b.name) }

/-- A JSON response of the endpoint: HTTP status plus a body holding
exactly the fields `success` (boolean) and `message` (string). -/
structure ApiResponse where
  status : Nat
  success : Bool
  message : String
deriving DecidableEq

/-- The 400 response of lines 82-85. -/
def badRequestResponse : ApiResponse :=
  { status := 400, success := false,
    message := "Please fill in all required fields (Name, Email, Message)." }

/-- The 500 response of the catch block, lines 177-181: one generic body
for every error thrown after validation passed. -/
def serverErrorResponse : ApiResponse :=
  { status := 500, success := false,
    message := "An internal server error occurred. Please try again later." }

/-- The 200 response of line 175. -/
def okResponse : ApiResponse :=
  { status := 200, success := true,
    message := "Your message has been sent successfully!" }

/-- Everything observable about one request: the response sent, whether
`save` was called, the record the store now holds (nothing ever deletes
it), and which mails were composed and handed to `sendMail`. -/
structure Outcome where
  response : ApiResponse
  saveAttempted : Bool
  saved : Option Contact
  adminSendAttempted : Bool
  adminMail : Option MailOptions
  replySendAttempted : Bool
  replyMail : Option MailOptions
deriving DecidableEq

/-- The `app.post("/api/contact")` handler (lines 76-182). Control flow of
the source: the truthiness check returns 400 early; every later failure
(`save` validation or store failure, a `TypeError` while building the
admin mail, either `sendMail` rejection) jumps to the single catch block,
so a failed admin send skips the auto-reply entirely; the saved record is
never rolled back. -/
def handleContact (env : Env) (b : RequestBody) : Outcome :=
  if !requiredFieldsPresent b then
    { response := badRequestResponse, saveAttempted := false, saved := none,
      adminSendAttempted := false, adminMail := none,
      replySendAttempted := false, replyMail := none }
  else
    match saveContact env b with
    | .schemaReject =>
      { response := serverErrorResponse, saveAttempted := true, saved := none,
        adminSendAttempted := false, adminMail := none,
        replySendAttempted := false, replyMail := none }
    | .storeFail =>
      { response := serverErrorResponse, saveAttempted := true, saved := none,
        adminSendAttempted := false, adminMail := none,
        replySendAttempted := false, replyMail := none }
    | .saved c =>
      match composeAdminMail env b with
      | none =>
        { response := serverErrorResponse, saveAttempted := true, saved := some c,
          adminSendAttempted := false, adminMail := none,
          replySendAttempted := false, replyMail := none }
      | some am =>
        if !env.adminSendOk then
          { response := serverErrorResponse, saveAttempted := true, saved := some c,
            adminSendAttempted := true, adminMail := some am,
            replySendAttempted := false, replyMail := none }
        else
          if !env.replySendOk then
            { response := serverErrorResponse, saveAttempted := true, saved := some c,
              adminSendAttempted := true, adminMail := some am,
              replySendAttempted := true, replyMail := some (composeReplyMail env b) }
          else
            { response := okResponse, saveAttempted := true, saved := some c,
              adminSendAttempted := true, adminMail := some am,
              replySendAttempted := true, replyMail := some (composeReplyMail env b) }

/-- Modelled from the spec: the HTML escaping of one character that
section 4.3 requires for user-supplied fields; `src/server.js` contains no
such escaping. -/
def escChar (c : Char) : List Char :=
  if c = '&' then "&amp;".data
  else if c = '<' then "&lt;".data
  else if c = '>' then "&gt;".data
  else if c = '"' then "&quot;".data
  else [c]

/-- Modelled from the spec: HTML-escape a user-supplied field before
embedding it in markup (spec section 4.3); absent from `src/server.js`. -/
def htmlEscape (s : String) : String := ⟨s.data.flatMap escChar⟩

/-- An environment in which the store write and both mail sends succeed. -/
def envAllOk : Env := ⟨true, true, true, "owner@gmail.com"⟩

/-- An environment in which only the admin (operator) send fails. -/
def envAdminFail : Env := ⟨true, false, true, "owner@gmail.com"⟩

/-- The request body of spec Scenario A. -/
def adaBody : RequestBody := ⟨.vStr "Ada", .vStr "ADA@X.COM", .vUndefined, .vStr "Hello"⟩

/-- The persisted record produced by Scenario A. -/
def adaContact : Contact := ⟨"Ada", "ada@x.com", some "No Subject", "Hello"⟩

/-- An environment in which only the auto-reply send fails. -/
def envReplyFail : Env := ⟨true, true, false, "owner@gmail.com"⟩

/-- An environment in which the database write fails. -/
def envStoreFail : Env := ⟨false, true, true, "owner@gmail.com"⟩

/-- A body whose `name` is the empty string (JS-falsy). -/
def emptyNameBody : RequestBody := ⟨.vStr "", .vStr "a@b.com", .vUndefined, .vStr "hi"⟩

/-- A body whose `name` is whitespace-only (JS-truthy, trims to empty). -/
def wsNameBody : RequestBody := ⟨.vStr "   ", .vStr "a@b.com", .vUndefined, .vStr "hi"⟩

/-- A body whose `name` is the number 5 (truthy, not textual). -/
def numNameBody : RequestBody := ⟨.vNum 5, .vStr "a@b.com", .vUndefined, .vStr "hi"⟩

/-- A body whose `subject` is whitespace-only (truthy, trims to empty). -/
def wsSubjectBody : RequestBody := ⟨.vStr "Ada", .vStr "a@b.com", .vStr "   ", .vStr "Hi"⟩

/-- A body carrying HTML markup in the user-supplied fields. -/
def markupBody : RequestBody := ⟨.vStr "<b>Bob</b>", .vStr "a@b.com", .vStr "<i>hi</i>", .vStr "a < b"⟩

/-- A request body all of whose fields are strings. -/
def strBody (n e s m : String) : RequestBody := ⟨.vStr n, .vStr e, .vStr s, .vStr m⟩

/-- Trimming the empty string yields the empty string. -/
theorem jsTrim_empty : jsTrim "" = "" := rfl

/-- A string with a non-empty trim is itself non-empty. -/
theorem ne_empty_of_jsTrim_ne (s : String) (h : jsTrim s ≠ "") : s ≠ "" :=
  fun hs => h (by rw [hs]; decide)

/-- A string whose lower-cased trim is non-empty is itself non-empty. -/
theorem ne_empty_of_email_ne (s : String) (h : jsTrim (jsToLower s) ≠ "") : s ≠ "" :=
  fun hs => h (by rw [hs]; decide)

/-- Whenever the handler reports a persisted record, that record is exactly
the document Mongoose validated and stored. -/
theorem handleContact_saved_inv (env : Env) (b : RequestBody) (c : Contact)
    (h : (handleContact env b).saved = some c) : buildDoc b = some c := by
  cases hv : requiredFieldsPresent b <;>
  cases hbd : buildDoc b <;>
  cases hst : env.storeOk <;>
  cases hme : b.message <;>
  cases ha : env.adminSendOk <;>
  cases hr : env.replySendOk <;>
  simp [handleContact, saveContact, composeAdminMail, hv, hbd, hst, hme, ha, hr] at h <;>
  simp [hbd, h]

/-- Claim C1, counterexample: store and acknowledgment transport are fine
but the operator send fails; the record is persisted and the operator
dispatch was attempted, yet the acknowledgment dispatch never happens —
refuting the claim that the two dispatch outcomes are independent. -/
theorem claim1_counterexample :
    (handleContact envAdminFail adaBody).saved = some adaContact ∧
    (handleContact envAdminFail adaBody).adminSendAttempted = true ∧
    (handleContact envAdminFail adaBody).replySendAttempted = false ∧
    (handleContact envAdminFail adaBody).replyMail = none := by decide

/-- Claim C1, amended: for every request that passes validation and whose
store save succeeds, a failing operator dispatch short-circuits to the
catch block — the acknowledgment dispatch is never attempted, the record
stays persisted, and the response is the generic 500. -/
theorem claim1_amended (env : Env) (b : RequestBody) (c : Contact) (m : String)
    (hv : requiredFieldsPresent b = true) (hbd : buildDoc b = some c)
    (hst : env.storeOk = true) (hm : b.message = .vStr m)
    (ha : env.adminSendOk = false) :
    (handleContact env b).adminSendAttempted = true ∧
    (handleContact env b).replySendAttempted = false ∧
    (handleContact env b).replyMail = none ∧
    (handleContact env b).saved = some c ∧
    (handleContact env b).response = serverErrorResponse := by
  simp [handleContact, saveContact, composeAdminMail, hv, hbd, hst, hm, ha]

/-- Claim C1, witness for the amended theorem at Scenario A inputs with a
failing operator send. -/
theorem claim1_witness :
    (handleContact envAdminFail adaBody).adminSendAttempted = true ∧
    (handleContact envAdminFail adaBody).replySendAttempted = false ∧
    (handleContact envAdminFail adaBody).replyMail = none ∧
    (handleContact envAdminFail adaBody).saved = some adaContact ∧
    (handleContact envAdminFail adaBody).response = serverErrorResponse :=
  claim1_amended envAdminFail adaBody adaContact "Hello"
    (by decide) (by decide) rfl rfl rfl

/-- Claim C2, counterexample: a whitespace-only `name` passes the
truthiness check, so the save IS invoked and the response is the 500 of
the catch block, not the claimed 400; and a numeric (non-textual) `name`
is not rejected at all — it is stringified, saved, and answered 200. -/
theorem claim2_counterexample :
    requiredFieldsPresent wsNameBody = true ∧
    (handleContact envAllOk wsNameBody).saveAttempted = true ∧
    (handleContact envAllOk wsNameBody).response = serverErrorResponse ∧
    (handleContact envAllOk wsNameBody).response ≠ badRequestResponse ∧
    (handleContact envAllOk numNameBody).response = okResponse ∧
    (handleContact envAllOk numNameBody).saved
      = some ⟨"5", "a@b.com", some "No Subject", "hi"⟩ := by decide

/-- Claim C2, amended: the 400 rejection with no save and no dispatch
happens exactly when `name`, `email` or `message` is JS-falsy (missing,
null, empty string, 0, false). Whitespace-only or non-textual truthy
values pass that check: the save is then attempted; when the schema
rejects the document (required field empty after trimming) the response is
the generic 500, still with nothing persisted and no dispatch; and no
input that passes the truthiness check is ever answered 400. -/
theorem claim2_amended :
    (∀ (env : Env) (b : RequestBody), requiredFieldsPresent b = false →
      (handleContact env b).response = badRequestResponse ∧
      (handleContact env b).saveAttempted = false ∧
      (handleContact env b).saved = none ∧
      (handleContact env b).adminSendAttempted = false ∧
      (handleContact env b).replySendAttempted = false) ∧
    (∀ (env : Env) (b : RequestBody), requiredFieldsPresent b = true →
      buildDoc b = none →
      (handleContact env b).saveAttempted = true ∧
      (handleContact env b).response = serverErrorResponse ∧
      (handleContact env b).saved = none ∧
      (handleContact env b).adminSendAttempted = false ∧
      (handleContact env b).replySendAttempted = false) ∧
    (∀ (env : Env) (b : RequestBody), requiredFieldsPresent b = true →
      (handleContact env b).response ≠ badRequestResponse ∧
      (handleContact env b).saveAttempted = true) := by
  refine ⟨?_, ?_, ?_⟩
  · intro env b hv
    simp [handleContact, hv]
  · intro env b hv hbd
    simp [handleContact, saveContact, hv, hbd]
  · intro env b hv
    cases hbd : buildDoc b <;> cases hst : env.storeOk <;> cases hme : b.message <;>
      cases ha : env.adminSendOk <;> cases hr : env.replySendOk <;>
      simp [handleContact, saveContact, composeAdminMail, hv, hbd, hst, hme, ha, hr,
        badRequestResponse, serverErrorResponse, okResponse]

/-- Claim C2, witness for the amended theorem: an empty name is rejected
with 400 and nothing invoked; a whitespace-only name reaches a failing
save and yields 500 with no dispatch and no 400. -/
theorem claim2_witness :
    ((handleContact envAllOk emptyNameBody).response = badRequestResponse ∧
     (handleContact envAllOk emptyNameBody).saveAttempted = false ∧
     (handleContact envAllOk emptyNameBody).saved = none ∧
     (handleContact envAllOk emptyNameBody).adminSendAttempted = false ∧
     (handleContact envAllOk emptyNameBody).replySendAttempted = false) ∧
    ((handleContact envAllOk wsNameBody).saveAttempted = true ∧
     (handleContact envAllOk wsNameBody).response = serverErrorResponse ∧
     (handleContact envAllOk wsNameBody).saved = none ∧
     (handleContact envAllOk wsNameBody).adminSendAttempted = false ∧
     (handleContact envAllOk wsNameBody).replySendAttempted = false) ∧
    ((handleContact envAllOk wsNameBody).response ≠ badRequestResponse ∧
     (handleContact envAllOk wsNameBody).saveAttempted = true) :=
  ⟨claim2_amended.1 envAllOk emptyNameBody (by decide),
   claim2_amended.2.1 envAllOk wsNameBody (by decide) (by decide),
   claim2_amended.2.2 envAllOk wsNameBody (by decide)⟩

/-- Claim C3: when validation passes, the save succeeds and at least one
of the two dispatches fails, the persisted record remains stored while the
caller receives the generic 500 failure response that does not name the
internal error. -/
theorem claim3_persisted_despite_dispatch_failure (env : Env) (b : RequestBody)
    (c : Contact) (m : String)
    (hv : requiredFieldsPresent b = true) (hbd : buildDoc b = some c)
    (hst : env.storeOk = true) (hm : b.message = .vStr m)
    (hfail : env.adminSendOk = false ∨ env.replySendOk = false) :
    (handleContact env b).saved = some c ∧
    (handleContact env b).response = serverErrorResponse ∧
    (handleContact env b).response.message
      = "An internal server error occurred. Please try again later." := by
  rcases hfail with ha | hr
  · simp [handleContact, saveContact, composeAdminMail, hv, hbd, hst, hm, ha,
      serverErrorResponse]
  · cases ha2 : env.adminSendOk <;>
      simp [handleContact, saveContact, composeAdminMail, hv, hbd, hst, hm, ha2, hr,
        serverErrorResponse]

/-- Claim C3, witness at Scenario A inputs with a failing auto-reply send. -/
theorem claim3_witness :
    (handleContact envReplyFail adaBody).saved = some adaContact ∧
    (handleContact envReplyFail adaBody).response = serverErrorResponse ∧
    (handleContact envReplyFail adaBody).response.message
      = "An internal server error occurred. Please try again later." :=
  claim3_persisted_despite_dispatch_failure envReplyFail adaBody adaContact "Hello"
    (by decide) (by decide) rfl rfl (Or.inr rfl)

/-- Claim C4: for a validated request whose store write fails, no mail
dispatch is ever attempted, nothing is persisted, and the response is the
500 failure. -/
theorem claim4_store_failure_no_dispatch (env : Env) (b : RequestBody) (c : Contact)
    (hv : requiredFieldsPresent b = true) (hbd : buildDoc b = some c)
    (hst : env.storeOk = false) :
    (handleContact env b).adminSendAttempted = false ∧
    (handleContact env b).replySendAttempted = false ∧
    (handleContact env b).adminMail = none ∧
    (handleContact env b).replyMail = none ∧
    (handleContact env b).saved = none ∧
    (handleContact env b).response = serverErrorResponse := by
  simp [handleContact, saveContact, hv, hbd, hst]

/-- Claim C4, witness at Scenario A inputs with a failing store. -/
theorem claim4_witness :
    (handleContact envStoreFail adaBody).adminSendAttempted = false ∧
    (handleContact envStoreFail adaBody).replySendAttempted = false ∧
    (handleContact envStoreFail adaBody).adminMail = none ∧
    (handleContact envStoreFail adaBody).replyMail = none ∧
    (handleContact envStoreFail adaBody).saved = none ∧
    (handleContact envStoreFail adaBody).response = serverErrorResponse :=
  claim4_store_failure_no_dispatch envStoreFail adaBody adaContact
    (by decide) (by decide) rfl

/-- Claim C5, counterexample: a whitespace-only subject is truthy, so the
default is not applied, and the schema trims it to the empty string — the
persisted record carries an empty subject, refuting the claimed
invariant. -/
theorem claim5_counterexample :
    truthy wsSubjectBody.subject = true ∧
    (handleContact envAllOk wsSubjectBody).saved
      = some ⟨"Ada", "a@b.com", some "", "Hi"⟩ := by decide

/-- Claim C5, amended: a persisted record always carries a subject value
(never null); when the input subject is falsy the persisted subject is the
literal "No Subject"; when the input subject is a non-empty string the
persisted subject is its trim — which is the empty string exactly when the
input subject was whitespace-only. -/
theorem claim5_amended (env : Env) (b : RequestBody) (c : Contact)
    (h : (handleContact env b).saved = some c) :
    c.subject ≠ none ∧
    (truthy b.subject = false → c.subject = some "No Subject") ∧
    (∀ s, b.subject = .vStr s → s ≠ "" → c.subject = some (jsTrim s)) := by
  have hbd := handleContact_saved_inv env b c h
  have hsub : c.subject = (castString (subjectOrDefault b)).map jsTrim := by
    cases hn : setRequiredTrim b.name with
    | none => simp [buildDoc, hn] at hbd
    | some n =>
      cases he : setEmailField b.email with
      | none => simp [buildDoc, hn, he] at hbd
      | some e =>
        cases hm : setRequiredTrim b.message with
        | none => simp [buildDoc, hn, he, hm] at hbd
        | some m =>
          simp [buildDoc, hn, he, hm] at hbd
          obtain ⟨-, hrec⟩ := hbd
          rw [← hrec]
  refine ⟨?_, ?_, ?_⟩
  · rw [hsub]
    cases hbs : b.subject with
    | vUndefined => simp [subjectOrDefault, jsOr, truthy, castString, hbs]
    | vNull => simp [subjectOrDefault, jsOr, truthy, castString, hbs]
    | vBool bb => cases bb <;> simp [subjectOrDefault, jsOr, truthy, castString, hbs]
    | vNum nn =>
      by_cases hnn : nn = 0 <;>
        simp [subjectOrDefault, jsOr, truthy, castString, hbs, hnn, bne_iff_ne]
    | vStr ss =>
      by_cases hss : ss = "" <;>
        simp [subjectOrDefault, jsOr, truthy, castString, hbs, hss, bne_iff_ne]
  · intro ht
    rw [hsub]
    simp [subjectOrDefault, jsOr, ht, castString]
    decide
  · intro s hbs hne
    rw [hsub]
    simp [subjectOrDefault, jsOr, truthy, hbs, castString, bne_iff_ne, hne]

/-- Claim C5, witness for the amended theorem: at Scenario A the subject
is present and defaulted; at the whitespace-subject input the persisted
subject is the trim of the whitespace string. -/
theorem claim5_witness :
    adaContact.subject ≠ none ∧
    adaContact.subject = some "No Subject" ∧
    (⟨"Ada", "a@b.com", some "", "Hi"⟩ : Contact).subject = some (jsTrim "   ") :=
  ⟨(claim5_amended envAllOk adaBody adaContact (by decide)).1,
   (claim5_amended envAllOk adaBody adaContact (by decide)).2.1 (by decide),
   (claim5_amended envAllOk wsSubjectBody ⟨"Ada", "a@b.com", some "", "Hi"⟩
      (by decide)).2.2 "   " rfl (by decide)⟩

/-- Claim C6: Scenario A — name Ada, upper-case email, no subject — is
accepted; the persisted record has the lower-cased email and the defaulted
subject, and the response is 200 with success true. -/
theorem claim6_scenarioA :
    (handleContact envAllOk adaBody).saved
      = some ⟨"Ada", "ada@x.com", some "No Subject", "Hello"⟩ ∧
    (handleContact envAllOk adaBody).response = okResponse ∧
    okResponse.status = 200 ∧
    okResponse.success = true := by decide

/-- Claim C7 (code bug): the handler embeds the user-supplied `name`,
`subject` and `message` into both email bodies verbatim, with no HTML
escaping — markup characters land in the rendered body as markup. The
first three conjuncts evaluate the pipeline at a markup-carrying input and
exhibit the raw fields spliced directly between the template chunks; the
last two show that the escaping the specification requires would have
produced a different string. -/
theorem claim7_unescaped_embedding :
    ((handleContact envAllOk markupBody).adminMail.map MailOptions.html)
      = some (adminHtml "<b>Bob</b>" "a@b.com" "<i>hi</i>" "a < b") ∧
    adminHtml "<b>Bob</b>" "a@b.com" "<i>hi</i>" "a < b"
      = adminHtmlA ++ "<b>Bob</b>" ++ adminHtmlB
        ++ "<a href=\"mailto:" ++ "a@b.com" ++ "\">" ++ "a@b.com" ++ "</a>"
        ++ adminHtmlC ++ "<i>hi</i>" ++ adminHtmlD ++ jsNlToBr "a < b" ++ adminHtmlE ∧
    ((handleContact envAllOk markupBody).replyMail.map MailOptions.html)
      = some (replyHtmlA ++ "<b>Bob</b>" ++ replyHtmlB) ∧
    htmlEscape "<b>Bob</b>" = "&lt;b&gt;Bob&lt;/b&gt;" ∧
    htmlEscape "<b>Bob</b>" ≠ "<b>Bob</b>" :=
  ⟨rfl, rfl, rfl, by decide, by decide⟩

/-- Claim C8: for every accepted all-string request that reaches the
dispatch stage, the operator message has replyTo equal to the submitted
email, subject equal to the literal "New Contact Form Message: " followed
by the defaulted subject, and a body that renders the email as a mail-to
anchor and the message with newlines turned into `<br>`; the
acknowledgment message is addressed to the submitted email with the fixed
subject "Thank you for your message!". -/
theorem claim8_composed_message_shape (env : Env) (n e s m : String)
    (hn : jsTrim n ≠ "") (he : jsTrim (jsToLower e) ≠ "") (hm : jsTrim m ≠ "")
    (hst : env.storeOk = true) (ha : env.adminSendOk = true) :
    ((handleContact env (strBody n e s m)).adminMail.map MailOptions.replyTo)
        = some (some e) ∧
    ((handleContact env (strBody n e s m)).adminMail.map MailOptions.subject)
        = some ("New Contact Form Message: " ++ (if s = "" then "No Subject" else s)) ∧
    ((handleContact env (strBody n e s m)).adminMail.map MailOptions.html)
        = some (adminHtmlA ++ n ++ adminHtmlB
            ++ "<a href=\"mailto:" ++ e ++ "\">" ++ e ++ "</a>"
            ++ adminHtmlC ++ (if s = "" then "No Subject" else s)
            ++ adminHtmlD ++ jsNlToBr m ++ adminHtmlE) ∧
    ((handleContact env (strBody n e s m)).replyMail.map MailOptions.recipient)
        = some e ∧
    ((handleContact env (strBody n e s m)).replyMail.map MailOptions.subject)
        = some "Thank you for your message!" := by
  have hn0 : n ≠ "" := ne_empty_of_jsTrim_ne n hn
  have he0 : e ≠ "" := ne_empty_of_email_ne e he
  have hm0 : m ≠ "" := ne_empty_of_jsTrim_ne m hm
  have hv : requiredFieldsPresent (strBody n e s m) = true := by
    simp [requiredFieldsPresent, strBody, truthy, bne_iff_ne, hn0, he0, hm0]
  have hbd : buildDoc (strBody n e s m)
      = some ⟨jsTrim n, jsTrim (jsToLower e),
              some (jsTrim (if s = "" then "No Subject" else s)), jsTrim m⟩ := by
    by_cases hse : s = "" <;>
      simp [buildDoc, strBody, setRequiredTrim, setEmailField, castString,
        subjectOrDefault, jsOr, truthy, bne_iff_ne, hn, he, hm, hse]
  simp only [strBody] at hv hbd ⊢
  by_cases hse : s = ""
  · subst hse
    cases hro : env.replySendOk <;>
      simp [handleContact, saveContact, composeAdminMail, composeReplyMail, hv, hbd,
        hst, ha, hro, jsToString, subjectOrDefault, jsOr, truthy, adminHtml,
        replyHtml, bne_iff_ne]
  · cases hro : env.replySendOk <;>
      simp [handleContact, saveContact, composeAdminMail, composeReplyMail, hv, hbd,
        hst, ha, hro, jsToString, subjectOrDefault, jsOr, truthy, adminHtml,
        replyHtml, bne_iff_ne, hse]

/-- Claim C8, witness at Scenario A inputs with a multi-line message and
absent-equivalent empty subject. -/
theorem claim8_witness :
    ((handleContact envAllOk (strBody "Ada" "ADA@X.COM" "" "Hello\nBye")).adminMail.map
        MailOptions.replyTo)
      = some (some "ADA@X.COM") ∧
    ((handleContact envAllOk (strBody "Ada" "ADA@X.COM" "" "Hello\nBye")).adminMail.map
        MailOptions.subject)
      = some ("New Contact Form Message: "
          ++ (if ("" : String) = "" then "No Subject" else "")) ∧
    ((handleContact envAllOk (strBody "Ada" "ADA@X.COM" "" "Hello\nBye")).adminMail.map
        MailOptions.html)
      = some (adminHtmlA ++ "Ada" ++ adminHtmlB
          ++ "<a href=\"mailto:" ++ "ADA@X.COM" ++ "\">" ++ "ADA@X.COM" ++ "</a>"
          ++ adminHtmlC ++ (if ("" : String) = "" then "No Subject" else "")
          ++ adminHtmlD ++ jsNlToBr "Hello\nBye" ++ adminHtmlE) ∧
    ((handleContact envAllOk (strBody "Ada" "ADA@X.COM" "" "Hello\nBye")).replyMail.map
        MailOptions.recipient)
      = some "ADA@X.COM" ∧
    ((handleContact envAllOk (strBody "Ada" "ADA@X.COM" "" "Hello\nBye")).replyMail.map
        MailOptions.subject)
      = some "Thank you for your message!" :=
  claim8_composed_message_shape envAllOk "Ada" "ADA@X.COM" "" "Hello\nBye"
    (by decide) (by decide) (by decide) rfl rfl

/-- Claim C9: both composed emails are built from the raw request-body
fields, not from the persisted normalized record — the acknowledgment goes
to the untrimmed, un-lowercased input email and the operator subject and
body embed the raw name and subject — so whenever the input email differs
from its normalization, the acknowledgment recipient differs from the
persisted email. -/
theorem claim9_raw_request_fields (env : Env) (n e s m : String)
    (hn : jsTrim n ≠ "") (he : jsTrim (jsToLower e) ≠ "") (hm : jsTrim m ≠ "")
    (hst : env.storeOk = true) (ha : env.adminSendOk = true) :
    ((handleContact env (strBody n e s m)).replyMail.map MailOptions.recipient)
        = some e ∧
    ((handleContact env (strBody n e s m)).adminMail.map MailOptions.subject)
        = some ("New Contact Form Message: " ++ (if s = "" then "No Subject" else s)) ∧
    ((handleContact env (strBody n e s m)).adminMail.map MailOptions.html)
        = some (adminHtml n e (if s = "" then "No Subject" else s) m) ∧
    (handleContact env (strBody n e s m)).saved
        = some ⟨jsTrim n, jsTrim (jsToLower e),
                some (jsTrim (if s = "" then "No Subject" else s)), jsTrim m⟩ ∧
    (e ≠ jsTrim (jsToLower e) →
      ((handleContact env (strBody n e s m)).replyMail.map MailOptions.recipient)
        ≠ some (jsTrim (jsToLower e))) := by
  have hn0 : n ≠ "" := ne_empty_of_jsTrim_ne n hn
  have he0 : e ≠ "" := ne_empty_of_email_ne e he
  have hm0 : m ≠ "" := ne_empty_of_jsTrim_ne m hm
  have hv : requiredFieldsPresent (strBody n e s m) = true := by
    simp [requiredFieldsPresent, strBody, truthy, bne_iff_ne, hn0, he0, hm0]
  have hbd : buildDoc (strBody n e s m)
      = some ⟨jsTrim n, jsTrim (jsToLower e),
              some (jsTrim (if s = "" then "No Subject" else s)), jsTrim m⟩ := by
    by_cases hse : s = "" <;>
      simp [buildDoc, strBody, setRequiredTrim, setEmailField, castString,
        subjectOrDefault, jsOr, truthy, bne_iff_ne, hn, he, hm, hse]
  simp only [strBody] at hv hbd ⊢
  by_cases hse : s = ""
  · subst hse
    cases hro : env.replySendOk <;>
      simp [handleContact, saveContact, composeAdminMail, composeReplyMail, hv, hbd,
        hst, ha, hro, jsToString, subjectOrDefault, jsOr, truthy, adminHtml,
        replyHtml, bne_iff_ne]
  · cases hro : env.replySendOk <;>
      simp [handleContact, saveContact, composeAdminMail, composeReplyMail, hv, hbd,
        hst, ha, hro, jsToString, subjectOrDefault, jsOr, truthy, adminHtml,
        replyHtml, bne_iff_ne, hse]

/-- Claim C9, witness: with the upper-case input email of Scenario A the
acknowledgment recipient is the raw input address and differs from the
persisted, lower-cased one. -/
theorem claim9_witness :
    ((handleContact envAllOk (strBody "Ada" "ADA@X.COM" " Re " "Hi")).replyMail.map
        MailOptions.recipient)
      = some "ADA@X.COM" ∧
    ((handleContact envAllOk (strBody "Ada" "ADA@X.COM" " Re " "Hi")).adminMail.map
        MailOptions.subject)
      = some ("New Contact Form Message: "
          ++ (if (" Re " : String) = "" then "No Subject" else " Re ")) ∧
    (handleContact envAllOk (strBody "Ada" "ADA@X.COM" " Re " "Hi")).saved
      = some ⟨jsTrim "Ada", jsTrim (jsToLower "ADA@X.COM"),
              some (jsTrim (if (" Re " : String) = "" then "No Subject" else " Re ")),
              jsTrim "Hi"⟩ ∧
    ((handleContact envAllOk (strBody "Ada" "ADA@X.COM" " Re " "Hi")).replyMail.map
        MailOptions.recipient)
      ≠ some (jsTrim (jsToLower "ADA@X.COM")) := by
  have h := claim9_raw_request_fields envAllOk "Ada" "ADA@X.COM" " Re " "Hi"
    (by decide) (by decide) (by decide) rfl rfl
  exact ⟨h.1, h.2.1, h.2.2.2.1, h.2.2.2.2 (by decide)⟩

/-- Claim C10: once the truthiness validation has passed, the only
responses the endpoint can produce are the 200 success and the single
generic 500 — every post-validation failure (schema rejection at save,
store failure, compose failure, either dispatch failure) is answered by
the identical 500 body, so the caller cannot tell which step failed; and
unconditionally, every response of the endpoint is one of the three fixed
(status, success, message) triples. -/
theorem claim10_response_uniformity (env : Env) (b : RequestBody) :
    (requiredFieldsPresent b = true →
      (handleContact env b).response = okResponse ∨
      (handleContact env b).response = serverErrorResponse) ∧
    ((handleContact env b).response = badRequestResponse ∨
     (handleContact env b).response = serverErrorResponse ∨
     (handleContact env b).response = okResponse) := by
  cases hv : requiredFieldsPresent b <;>
  cases hbd : buildDoc b <;>
  cases hst : env.storeOk <;>
  cases hme : b.message <;>
  cases ha : env.adminSendOk <;>
  cases hr : env.replySendOk <;>
  simp [handleContact, saveContact, composeAdminMail, hv, hbd, hst, hme, ha, hr]

/-- Claim C10, witness: at Scenario A the all-success run answers with one
of the two allowed post-validation responses, and so does the run with a
failing auto-reply send. -/
theorem claim10_witness :
    ((handleContact envAllOk adaBody).response = okResponse ∨
     (handleContact envAllOk adaBody).response = serverErrorResponse) ∧
    ((handleContact envReplyFail adaBody).response = okResponse ∨
     (handleContact envReplyFail adaBody).response = serverErrorResponse) :=
  ⟨(claim10_response_uniformity envAllOk adaBody).1 (by decide),
   (claim10_response_uniformity envReplyFail adaBody).1 (by decide)⟩

end PortfolioBackend
